import Mathlib

set_option maxRecDepth 100000

/-
Verification of the VEREATY backend's dynamic onboarding conversation engine
(`utils/onboarding_function.py`, `api/v1/endpoints/onboarding/onboardings.py`).

The Python code is shallowly embedded: conversation turns are records with
optional fields (Python dict `.get` truthiness becomes `Option String`
emptiness tests), the Gemini text-generation provider is an attempt-indexed
oracle `Nat → Except Unit String` (an `.error` models a raised exception,
`.ok t` a response object whose `.text` is `t`), and the wall clock value
`int(time.time())` is an explicit natural-number parameter `now`.
Python string operations are re-implemented on `List Char` with Python
semantics (`strip`, `lower`, `title`, `count`, `split`, substring `in`),
and the handful of fixed regular expressions used by the source are
translated into explicit matchers whose behaviour is derived from the
Python `re` semantics of those concrete patterns.
-/

/-! ## Python-flavoured character and string primitives -/

/-- Python `str.strip()` whitespace class: `' '`, `\t`, `\n`, `\r`, `\x0b`, `\x0c`. -/
def isPyWs (c : Char) : Bool :=
  c = ' ' || c = '\t' || c = '\n' || c = '\r' || c = '\x0b' || c = '\x0c'

def isLowerAZ (c : Char) : Bool := 'a' ≤ c && c ≤ 'z'

def isAsciiAlpha (c : Char) : Bool := ('a' ≤ c && c ≤ 'z') || ('A' ≤ c && c ≤ 'Z')

def isDigitC (c : Char) : Bool := '0' ≤ c && c ≤ '9'

/-- Character class `[a-z0-9_]` of the key regex `^[a-z][a-z0-9_]*$`. -/
def isKeyTail (c : Char) : Bool := isLowerAZ c || isDigitC c || c = '_'

/-- Character class `[a-zA-Z_]` (identifier start in the key-extraction regexes). -/
def isIdentStartC (c : Char) : Bool := isAsciiAlpha c || c = '_'

/-- Character class `[a-zA-Z0-9_]`. -/
def isIdentC (c : Char) : Bool := isAsciiAlpha c || isDigitC c || c = '_'

/-- Character class `[1-5]`. -/
def isDigit15 (c : Char) : Bool := '1' ≤ c && c ≤ '5'

/-- Character class `[A-E]` under `re.IGNORECASE`. -/
def isAEci (c : Char) : Bool := ('A' ≤ c && c ≤ 'E') || ('a' ≤ c && c ≤ 'e')

def startsWithL : List Char → List Char → Bool
  | [], _ => true
  | _ :: _, [] => false
  | a :: as, b :: bs => a = b && startsWithL as bs

/-- Python `pat in s` on the underlying character lists. -/
def infixOfL (pat : List Char) : List Char → Bool
  | [] => startsWithL pat []
  | c :: rest => startsWithL pat (c :: rest) || infixOfL pat rest

def pyStripL (l : List Char) : List Char :=
  ((l.dropWhile isPyWs).reverse.dropWhile isPyWs).reverse

/-- Python `str.strip()`. -/
def pyStrip (s : String) : String := ⟨pyStripL s.data⟩

def pyLowerL (l : List Char) : List Char := l.map Char.toLower

/-- Python `str.lower()` (the source only lower-cases ASCII text). -/
def pyLower (s : String) : String := ⟨pyLowerL s.data⟩

/-- Python `pat in s` substring test. -/
def isSubstr (pat s : String) : Bool := infixOfL pat.data s.data

/-- Python `s.count(c)` for a single-character needle. -/
def countChar (c : Char) (s : String) : Nat := s.data.count c

/-- Python `str.title()`: a cased character is upper-cased when the previous
character is not alphabetic, lower-cased otherwise. -/
def pyTitleAux : List Char → Bool → List Char
  | [], _ => []
  | c :: rest, prevAlpha =>
    (if isAsciiAlpha c then (if prevAlpha then c.toLower else c.toUpper) else c)
      :: pyTitleAux rest (isAsciiAlpha c)

def pyTitle (s : String) : String := ⟨pyTitleAux s.data false⟩

/-- Decimal digit character, as produced by Python `str(int)`. -/
def digitChar (d : Nat) : Char :=
  if d = 0 then '0' else if d = 1 then '1' else if d = 2 then '2'
  else if d = 3 then '3' else if d = 4 then '4' else if d = 5 then '5'
  else if d = 6 then '6' else if d = 7 then '7' else if d = 8 then '8' else '9'

def natDigitsAux : Nat → Nat → List Char → List Char
  | 0, _, acc => acc
  | fuel + 1, n, acc =>
    if n < 10 then digitChar (n % 10) :: acc
    else natDigitsAux fuel (n / 10) (digitChar (n % 10) :: acc)

/-- Python `str(n)` for a natural number (the fuel `n + 1` always dominates
the number of decimal digits, so the fuel never runs out). -/
def natToString (n : Nat) : String := ⟨natDigitsAux (n + 1) n []⟩

/-- Python negative-index slice `s[-k:]`. -/
def strTakeRight (k : Nat) (s : String) : String := ⟨(s.data.reverse.take k).reverse⟩

/-- Python `s.split(chr(10))`, keeping empty pieces. -/
def splitNLAux : List Char → List Char → List (List Char)
  | [], cur => [cur.reverse]
  | c :: rest, cur =>
    if c = '\n' then cur.reverse :: splitNLAux rest [] else splitNLAux rest (c :: cur)

/-- Python `str.split()` (split on whitespace runs, dropping empties),
used to count words for the spec-worded quality predicate. -/
def wordsAux : List Char → List Char → List (List Char)
  | [], cur => if cur = [] then [] else [cur.reverse]
  | c :: rest, cur =>
    if isPyWs c then
      (if cur = [] then wordsAux rest [] else cur.reverse :: wordsAux rest [])
    else wordsAux rest (c :: cur)

def countWords (s : String) : Nat := (wordsAux s.data []).length

/-- Python `chr(10).join(parts)`. -/
def joinNL : List String → String
  | [] => ""
  | x :: rest => rest.foldl (fun a b => a ++ "\n" ++ b) x

/-- The key regex `^[a-z][a-z0-9_]*$` from `_is_quality_response`. -/
def matchesKeyRegex (s : String) : Bool :=
  match s.data with
  | [] => false
  | c :: cs => isLowerAZ c && cs.all isKeyTail

/-! ## Data model -/

/-- One conversation record as stored per session: the Python dicts
`{"question": ..., "answer": ..., "preference_key": ...}`. A missing or
`None` entry is `none`. -/
structure Turn where
  question : Option String := none
  answer : Option String := none
  preference_key : Option String := none
deriving DecidableEq

/-- The response dict produced by the engine (both parsed candidates and the
final result of `generate_next_question` have this shape). -/
structure QResponse where
  question : String
  options : List String
  preference_key : Option String
  is_complete : Bool
deriving DecidableEq

/-- Python truthiness of an optional string (`None` and `""` are falsy). -/
def optTruthy : Option String → Bool
  | none => false
  | some s => s ≠ ""

/-- `len([msg for msg in conversation_history if msg.get("answer")])`. -/
def answeredCount (h : List Turn) : Nat :=
  (h.filter (fun m => optTruthy m.answer)).length

/-! ## Response parsing (`_flexible_parse_response` and helpers)

The four question regexes, four option regexes and four preference-key
regexes of the source are fixed concrete patterns; each matcher below is the
specialisation of Python `re.match` / `re.search` semantics to that pattern.
-/

/-- `re.match(r'^Q\d*[:.]\s*(.+)$', line, re.IGNORECASE)`: `Q`/`q`, a maximal
digit run, then `:` or `.`; the pattern matches iff something follows the
separator, and `group(1).strip()` is then the stripped remainder. -/
def matchQnum (l : List Char) : Option String :=
  match l with
  | c :: rest =>
    if c = 'Q' || c = 'q' then
      match rest.dropWhile isDigitC with
      | sep :: r2 =>
        if (sep = ':' || sep = '.') && r2 ≠ [] then some ⟨pyStripL r2⟩ else none
      | [] => none
    else none
  | [] => none

/-- `re.match(r'^\d+[.)]\s*(.+\?)$', line)`: digits, `.` or `)`, and the rest
must end in `?` with at least two characters; `group(1).strip()` equals the
stripped remainder. -/
def matchNumQuestion (l : List Char) : Option String :=
  match l with
  | c :: _ =>
    if isDigitC c then
      match l.dropWhile isDigitC with
      | sep :: r2 =>
        if (sep = '.' || sep = ')') && 2 ≤ r2.length && r2.getLast? = some '?' then
          some ⟨pyStripL r2⟩
        else none
      | [] => none
    else none
  | [] => none

/-- Try the four question patterns in source order on one (pre-stripped)
line; `""` means no pattern matched (Python stores the group into a falsy
slot, so a match whose stripped group is empty behaves like no question). -/
def question_from_patterns (line : String) : String :=
  let l := line.data
  if startsWithL "question:".data (pyLowerL l) && l.drop 9 ≠ [] then ⟨pyStripL (l.drop 9)⟩
  else match matchQnum l with
  | some g => g
  | none =>
    match matchNumQuestion l with
    | some g => g
    | none => if 2 ≤ l.length && l.getLast? = some '?' then line else ""

/-- `any(word in line.lower() for word in ['what','which','how','do you','would you'])`. -/
def hasQWord (line : String) : Bool :=
  ["what", "which", "how", "do you", "would you"].any (fun w => isSubstr w (pyLower line))

/-- The question-extraction loop of `_flexible_parse_response`: first line
that yields a pattern match, or that looks like a question (`?` present or
length > 20, containing a question word). -/
def extract_question : List String → String
  | [] => ""
  | line :: rest =>
    let q1 := question_from_patterns line
    let q2 :=
      if q1 = "" && (line.data.contains '?' || 20 < line.data.length) && hasQWord line
      then line else q1
    if q2 = "" then extract_question rest else q2

/-- The option patterns `^[A-E][.):\s]\s*(.+)$` (ignorecase), `^[1-5][.)]\s*(.+)$`,
`^\*\s*(.+)$`, `^-\s*(.+)$`; their leading characters are pairwise disjoint, so
at most one pattern applies per line.  The stripped group is kept only when
longer than one character (`len(option_text) > 1`). -/
def option_from_line (line : String) : Option String :=
  let keep : List Char → Option String := fun l =>
    if 2 ≤ l.length then some ⟨l⟩ else none
  match line.data with
  | c1 :: c2 :: rest =>
    if (isAEci c1 && (c2 = '.' || c2 = ')' || c2 = ':' || isPyWs c2))
        || (isDigit15 c1 && (c2 = '.' || c2 = ')')) then
      keep (pyStripL rest)
    else if c1 = '*' || c1 = '-' then keep (pyStripL (c2 :: rest))
    else none
  | _ => none

def extract_options (lines : List String) : List String :=
  lines.filterMap option_from_line

/-- One step of `re.search(r'<label>\s*([a-zA-Z_][a-zA-Z0-9_]*)', text, re.I)`:
try to match at the head of `l`. -/
def tryLabelAt (lab : List Char) (l : List Char) : Option String :=
  if startsWithL lab (pyLowerL l) then
    match (l.drop lab.length).dropWhile isPyWs with
    | c :: r2 => if isIdentStartC c then some ⟨c :: r2.takeWhile isIdentC⟩ else none
    | [] => none
  else none

def searchLabelAux (lab : List Char) : List Char → Option String
  | [] => none
  | c :: rest =>
    match tryLabelAt lab (c :: rest) with
    | some k => some k
    | none => searchLabelAux lab rest

def searchLabel (lab : String) (text : String) : Option String :=
  searchLabelAux lab.data text.data

/-- The four key patterns of `_flexible_parse_response`, searched over the
whole raw text in order; the captured identifier is lower-cased. -/
def extract_preference_key (text : String) : Option String :=
  (match searchLabel "preference_key:" text with
   | some k => some k
   | none =>
     match searchLabel "preferencekey:" text with
     | some k => some k
     | none =>
       match searchLabel "key:" text with
       | some k => some k
       | none => searchLabel "category:" text).map pyLower

/-- `[line.strip() for line in ai_text.split(chr(10)) if line.strip()]`. -/
def parse_lines (s : String) : List String :=
  ((splitNLAux s.data []).map (fun l => (⟨pyStripL l⟩ : String))).filter (fun t => t ≠ "")

/-! ## Key generation -/

/-- The `concept_mappings` table of `_generate_preference_key_from_question`,
in source (dict-insertion) order. -/
def concept_mappings : List (String × String) :=
  [("breakfast", "breakfast"), ("lunch", "lunch"), ("dinner", "dinner"),
   ("snack", "snack"), ("spice", "spice"), ("cooking", "cooking"),
   ("meal", "meal"), ("food", "food"), ("eat", "eating"),
   ("drink", "beverage"), ("time", "timing"), ("prefer", "preference"),
   ("like", "preference"), ("portion", "portion"), ("vegetable", "vegetable"),
   ("fruit", "fruit"), ("protein", "protein"), ("grain", "grain"),
   ("dairy", "dairy"), ("sweet", "sweet"), ("salty", "salty"),
   ("hot", "temperature"), ("cold", "temperature"), ("texture", "texture"),
   ("budget", "budget"), ("shop", "shopping"), ("leftover", "leftover"),
   ("weekend", "weekend"), ("season", "seasonal"), ("outside", "dining_out"),
   ("restaurant", "dining_out"), ("kitchen", "kitchen"),
   ("equipment", "equipment"), ("prep", "preparation")]

def fallback_keys : List String :=
  ["food_habits", "eating_style", "meal_pattern", "dietary_choice",
   "cooking_method", "flavor_profile", "portion_control", "meal_timing",
   "nutrition_focus", "food_enjoyment"]

/-- `re.sub(r'[^a-z0-9_]', '_', key.lower())` then `re.sub(r'_+', '_', ...)`
then `.strip('_')`. -/
def collapseUAux : List Char → Bool → List Char
  | [], _ => []
  | c :: rest, prevU =>
    if c = '_' then
      (if prevU then collapseUAux rest true else '_' :: collapseUAux rest true)
    else c :: collapseUAux rest false

def key_cleanup (s : String) : String :=
  let mapped := (pyLowerL s.data).map (fun c => if isKeyTail c then c else '_')
  let collapsed := collapseUAux mapped false
  ⟨((collapsed.dropWhile (· = '_')).reverse.dropWhile (· = '_')).reverse⟩

/-- `_generate_preference_key_from_question`: substring-scan the concept
table over the lower-cased question (deduplicating concepts), append one
concept from the `how often`/`how much`/`when`/`where`/`what type` chain,
then build the key (`<c>_preference`, `<c0>_<c1>`, or a fallback key indexed
by `question_num % 10`) and clean it up. -/
def generate_preference_key_from_question (question : String) (qn : Nat) : String :=
  let ql := pyLower question
  let concepts := concept_mappings.foldl
    (fun acc wc => if isSubstr wc.1 ql && !(acc.contains wc.2) then acc ++ [wc.2] else acc) []
  let concepts :=
    if isSubstr "how often" ql || isSubstr "frequency" ql then concepts ++ ["frequency"]
    else if isSubstr "how much" ql || isSubstr "amount" ql then concepts ++ ["amount"]
    else if isSubstr "when" ql then concepts ++ ["timing"]
    else if isSubstr "where" ql then concepts ++ ["location"]
    else if isSubstr "what type" ql || isSubstr "which" ql then concepts ++ ["type"]
    else concepts
  let key :=
    match concepts with
    | [] => fallback_keys.getD (qn % 10) "food_habits"
    | [c] => c ++ "_preference"
    | c0 :: c1 :: _ => c0 ++ "_" ++ c1
  key_cleanup key

/-- `_generate_unique_preference_key`: the question-derived base key, then
numeric variants `_1`…`_9`, then the time-derived `preference_<last 3 digits>`
fallback (which is NOT checked against `used_keys` in the source). -/
def generate_unique_preference_key (used : List String) (question : String)
    (qn : Nat) (now : Nat) : String :=
  let base := generate_preference_key_from_question question qn
  if !(used.contains base) then base
  else
    match ((List.range 9).map (fun i => base ++ "_" ++ natToString (i + 1))).find?
        (fun v => !(used.contains v)) with
    | some v => v
    | none => "preference_" ++ strTakeRight 3 (natToString now)

/-! ## The candidate pipeline -/

/-- `_flexible_parse_response`: rejects empty/short text (`ValueError`,
modelled as `.error ()`), extracts question, options and key, pads options
to four with `Option <n>` placeholders, truncates to four, and appends
`"Other (please specify)"` unless an existing option mentions `other`.
No step of this parser ever sets `is_complete`. -/
def padOptions (l : List String) : List String :=
  l ++ ((List.range (4 - l.length)).map (fun i => "Option " ++ natToString (l.length + i + 1)))

def flexible_parse_response (aiText : String) (qn : Nat) : Except Unit QResponse :=
  if aiText = "" || (pyStrip aiText).data.length < 10 then .error ()
  else
    let lines := parse_lines aiText
    let q := extract_question lines
    let key0 := extract_preference_key aiText
    let key1 :=
      match key0 with
      | some k => some k
      | none => if q ≠ "" then some (generate_preference_key_from_question q qn) else none
    let opts4 := (padOptions (extract_options lines)).take 4
    let optsF :=
      if opts4.any (fun o => isSubstr "other" (pyLower o)) then opts4
      else opts4 ++ ["Other (please specify)"]
    .ok ⟨q, optsF, key1, false⟩

/-- `_generate_contextual_options`. -/
def generate_contextual_options (question : String) (_qn : Nat) : List String :=
  let ql := pyLower question
  if isSubstr "snack" ql || isSubstr "snacking" ql then
    ["Rarely snack", "Healthy snacks", "Whatever available", "Multiple times daily"]
  else if isSubstr "cook" ql || isSubstr "cooking" ql then
    ["Love cooking", "Cook when needed", "Quick meals only", "Avoid cooking"]
  else if isSubstr "portion" ql || isSubstr "amount" ql then
    ["Small portions", "Medium portions", "Large portions", "Varies by mood"]
  else if isSubstr "time" ql || isSubstr "timing" ql || isSubstr "when" ql then
    ["Very regular", "Somewhat regular", "Flexible timing", "No set schedule"]
  else if isSubstr "prefer" ql || isSubstr "like" ql || isSubstr "favorite" ql then
    ["Strong preferences", "Some preferences", "Open to most", "Very flexible"]
  else ["Yes, always", "Sometimes", "Rarely", "Never"]

/-- The question defaulting at the top of `_enhance_fully_dynamic_response`. -/
def enhance_question (pr : QResponse) (qn : Nat) : String :=
  let q := pyStrip pr.question
  if q = "" || q.data.length < 10 then
    "What\x27s your preference for meal planning? (Question " ++ natToString (qn + 1) ++ ")"
  else q

/-- `_enhance_fully_dynamic_response`: default the question, regenerate
options when fewer than four, replace a missing/duplicate preference key via
`_generate_unique_preference_key`, and emit
`options[:4] + ["Other (please specify)"]` with `is_complete = False`.
(The `except` branch of the source cannot trigger: the body is pure.) -/
def enhance_fully_dynamic_response (pr : QResponse) (used : List String)
    (qn : Nat) (now : Nat) : QResponse :=
  let question := enhance_question pr qn
  let options :=
    if pr.options.length < 4 then generate_contextual_options question qn else pr.options
  let key :=
    match pr.preference_key with
    | some k =>
      if k ≠ "" && !(used.contains k) then k
      else generate_unique_preference_key used question qn now
    | none => generate_unique_preference_key used question qn now
  ⟨question, options.take 4 ++ ["Other (please specify)"], some key, false⟩

/-- `_is_quality_response`: the early-return chain of the source. -/
def is_quality_response (r : QResponse) : Bool :=
  if r.question = "" || (pyStrip r.question).data.length < 10 then false
  else if r.options.length ≠ 5 then false
  else if (match r.preference_key with
           | some k => !(matchesKeyRegex k)
           | none => true) then false
  else if countChar ' ' r.question < 3 then false
  else true

/-- `_generate_alternative_dynamic_question`: the built-in creative question
bank, tried in dict order for the first key absent from `used_keys`, with the
`custom_preference_<qn>_<len(used_keys)>` ultimate fallback.  (The
`_generate_creative_preference_key` call of the source is dead code: its
result is never used.  The `conversation_history` argument is likewise
unused, and the `except` branch cannot trigger in the pure body.) -/
def generate_alternative_dynamic_question (used : List String) (qn : Nat) : QResponse :=
  let k1 := "snacking_style_" ++ natToString qn
  let k2 := "cooking_motivation_" ++ natToString qn
  let k3 := "meal_satisfaction_" ++ natToString qn
  let k4 := "food_exploration_" ++ natToString qn
  let k5 := "eating_environment_" ++ natToString qn
  if !(used.contains k1) then
    ⟨"How do you usually snack?",
     ["Healthy snacks only", "Whatever\x27s available", "Sweet treats", "Salty/savory snacks"]
       ++ ["Other (please specify)"], some k1, false⟩
  else if !(used.contains k2) then
    ⟨"What motivates your cooking?",
     ["Health benefits", "Taste and flavor", "Time saving", "Cost saving"]
       ++ ["Other (please specify)"], some k2, false⟩
  else if !(used.contains k3) then
    ⟨"What makes a meal satisfying?",
     ["Large portions", "Rich flavors", "Nutritional value", "Comfort feeling"]
       ++ ["Other (please specify)"], some k3, false⟩
  else if !(used.contains k4) then
    ⟨"How adventurous are you with food?",
     ["Love trying new things", "Sometimes try new", "Stick to favorites", "Very particular"]
       ++ ["Other (please specify)"], some k4, false⟩
  else if !(used.contains k5) then
    ⟨"Where do you prefer eating?",
     ["At dining table", "While watching TV", "In kitchen", "Anywhere convenient"]
       ++ ["Other (please specify)"], some k5, false⟩
  else
    ⟨"What other food preferences should we know?",
     ["Texture preferences", "Temperature preferences", "Flavor combinations",
      "Eating schedule", "Other (please specify)"],
     some ("custom_preference_" ++ natToString qn ++ "_" ++ natToString used.length), false⟩

/-- `_emergency_dynamic_generation`: `emergency_questions[question_num % 3]`
with a `str(int(time.time()))[-4:]` key suffix.  (The inner `except` branch
cannot trigger in the pure body.) -/
def emergency_dynamic_generation (qn : Nat) (now : Nat) : QResponse :=
  let suffix := strTakeRight 4 (natToString now)
  match qn % 3 with
  | 0 =>
    ⟨"What\x27s most important in your daily meals?",
     ["Taste and flavor", "Health benefits", "Quick preparation", "Cost effectiveness"]
       ++ ["Other (please specify)"], some ("meal_priority_" ++ suffix), false⟩
  | 1 =>
    ⟨"How flexible are your eating times?",
     ["Very regular schedule", "Somewhat flexible", "Quite flexible", "No fixed times"]
       ++ ["Other (please specify)"], some ("eating_flexibility_" ++ suffix), false⟩
  | _ =>
    ⟨"What cooking style suits you?",
     ["Simple and quick", "Traditional methods", "Modern techniques", "Whatever works"]
       ++ ["Other (please specify)"], some ("cooking_approach_" ++ suffix), false⟩

/-- `msg["preference_key"].replace("_", " ")`. -/
def underscoreToSpace (s : String) : String :=
  ⟨s.data.map (fun c => if c = '_' then ' ' else c)⟩

/-- `_generate_completion_response`: completion message built from the first
three answered turns carrying a preference key; `options = []`,
`preference_key = None`, `is_complete = True`. -/
def generate_completion_response (h : List Turn) : QResponse :=
  let answered := h.filter (fun m => optTruthy m.answer)
  let parts := (answered.take 3).filterMap (fun m =>
    match m.preference_key, m.answer with
    | some k, some a =>
      if k ≠ "" && a ≠ "" then
        some ("• " ++ pyTitle (underscoreToSpace k) ++ ": " ++ a)
      else none
    | _, _ => none)
  let summary := if parts = [] then "• Your personalized preferences recorded" else joinNL parts
  ⟨"Perfect! I have everything needed to create your personalized meal plans.\n\nYour Key Preferences:\n"
     ++ summary
     ++ "\n\nBased on your " ++ natToString answered.length
     ++ " detailed responses, we\x27ll create customized meal recommendations that match your taste, dietary needs, and lifestyle perfectly!\n\nReady to discover your ideal meal plans!",
   [], none, true⟩

/-- `_extract_used_preference_keys`: the set of keys of turns having both a
truthy key and a truthy answer, modelled as a first-occurrence-ordered
duplicate-free list (the source only tests membership and takes the
cardinality of this set, both order-independent). -/
def extract_used_preference_keys (h : List Turn) : List String :=
  h.foldl (fun acc m =>
    match m.preference_key, m.answer with
    | some k, some a =>
      if k ≠ "" && a ≠ "" && !(acc.contains k) then acc ++ [k] else acc
    | _, _ => acc) []

/-- `_generate_with_intelligent_retry`: up to three provider attempts; an
attempt succeeds when the response text has stripped length > 20; exceptions
on non-final attempts are swallowed; a final-attempt exception or three
failures raise (`.error ()`).  (The retry prompts differ per attempt, which
the attempt-indexed oracle `p` absorbs.) -/
def generate_with_intelligent_retry (p : Nat → Except Unit String) : Except Unit String :=
  let good : String → Bool := fun t => 20 < (pyStrip t).data.length
  let attempt3 : Except Unit String :=
    match p 2 with
    | .ok t => if good t then .ok t else .error ()
    | .error _ => .error ()
  let attempt2 : Except Unit String :=
    match p 1 with
    | .ok t => if good t then .ok t else attempt3
    | .error _ => attempt3
  match p 0 with
  | .ok t => if good t then .ok t else attempt2
  | .error _ => attempt2

/-- `DynamicConversationEngine.generate_next_question`.  The `user_input` and
`question_count` parameters of the source only influence the prompt string
sent to the provider, which the arbitrary oracle `p` absorbs.  The outer
`except Exception` catches the retry/parse failures and falls back to
`_emergency_dynamic_generation(len(conversation_history))`. -/
def generate_next_question (h : List Turn) (p : Nat → Except Unit String)
    (now : Nat) : QResponse :=
  if 10 ≤ answeredCount h then generate_completion_response h
  else
    let used := extract_used_preference_keys h
    match generate_with_intelligent_retry p with
    | .error _ => emergency_dynamic_generation h.length now
    | .ok text =>
      match flexible_parse_response text (answeredCount h) with
      | .error _ => emergency_dynamic_generation h.length now
      | .ok parsed =>
        let fin := enhance_fully_dynamic_response parsed used (answeredCount h) now
        if is_quality_response fin then fin
        else
          let alt := generate_alternative_dynamic_question used (answeredCount h)
          if is_quality_response alt then alt else fin

/-! ## Category tracking and preference extraction -/

/-- The fixed priority-category list; it appears verbatim both in
`_build_fully_dynamic_prompt` and in `PreferenceExtractor`. -/
def priority_categories : List String :=
  ["dietary_style", "spice_tolerance", "food_allergies", "regional_cuisines",
   "health_conditions", "family_needs", "cooking_constraints",
   "meal_complexity", "fasting_observances", "general_preference"]

/-- `uncovered_priority[0] if uncovered_priority else "general_preference"`
(from `_build_fully_dynamic_prompt`). -/
def next_priority_category (used : List String) : String :=
  match priority_categories.find? (fun c => !(used.contains c)) with
  | some c => c
  | none => "general_preference"

/-- The default preference table `PreferenceExtractor.extract_preferences`
starts from, in dict-insertion order. -/
def default_preferences : List (String × String) :=
  [("dietary_style", "Any"), ("spice_tolerance", "Medium"),
   ("food_allergies", "None"), ("regional_cuisines", "Any"),
   ("health_conditions", "None"), ("family_needs", "Not specified"),
   ("cooking_constraints", "Flexible"), ("meal_complexity", "Simple"),
   ("fasting_observances", "None"), ("general_preference", "No specific preference")]

/-- Python dict assignment `d[k] = v`: replace in place when the key exists,
append otherwise (the preference tables never hold duplicate keys, so
first-occurrence replacement is exactly dict assignment). -/
def setPref (m : List (String × String)) (k v : String) : List (String × String) :=
  match m with
  | [] => [(k, v)]
  | p :: rest => if p.1 = k then (k, v) :: rest else p :: setPref rest k v

/-- Python dict lookup `d.get(k)`. -/
def lookupPref (m : List (String × String)) (k : String) : Option String :=
  match m with
  | [] => none
  | p :: rest => if p.1 = k then some p.2 else lookupPref rest k

/-- `PreferenceExtractor._normalize_answer`: strip, remove an `^[A-E][:.]`
(ignorecase) or `^[1-5][.)]` prefix, and title-case; empty input maps to
`"Not specified"`. -/
def normalize_answer (answer : String) : String :=
  if answer = "" then "Not specified"
  else
    let c := pyStripL answer.data
    let c2 :=
      match c with
      | c1 :: cSep :: rest =>
        if isAEci c1 && (cSep = ':' || cSep = '.') then pyStripL rest
        else if isDigit15 c1 && (cSep = '.' || cSep = ')') then pyStripL rest
        else c
      | _ => c
    if c2 = [] then "Not specified" else pyTitle ⟨c2⟩

/-- One loop iteration of `PreferenceExtractor.extract_preferences`: items
with a falsy key are skipped; `item.get("answer", "")` is stripped, so a
`None` answer raises `AttributeError` inside the per-item `try` (skipped) and
a whitespace-only answer is falsy (skipped). -/
def extract_preferences_step (prefs : List (String × String)) (item : Turn) :
    List (String × String) :=
  match item.preference_key, item.answer with
  | some k, some a =>
    if k ≠ "" && (pyStrip a) ≠ "" then setPref prefs k (normalize_answer (pyStrip a))
    else prefs
  | _, _ => prefs

/-- `PreferenceExtractor.extract_preferences`. -/
def extract_preferences (conversation : List Turn) : List (String × String) :=
  conversation.foldl extract_preferences_step default_preferences

/-- A turn writes priority key `k` in `extract_preferences` iff it carries
that truthy key together with an answer that is non-empty after stripping. -/
def contributes_to (t : Turn) (k : String) : Bool :=
  match t.preference_key, t.answer with
  | some k2, some a => k2 == k && k2 ≠ "" && (pyStrip a) ≠ ""
  | _, _ => false

/-! ## Session-level completion decision (`onboardings.py`) -/

/-- `TOTAL_QUESTIONS_REQUIRED` from `onboardings.py` — the session layer's
completion threshold, which is 9, not 10. -/
def TOTAL_QUESTIONS_REQUIRED : Nat := 9

/-- The `is_complete` flag of the `OnboardingResponse` returned by
`/onboarding/respond` (and `/onboarding/start`), as a function of the
conversation after the incoming answer is saved: the endpoint completes when
`answered_count >= TOTAL_QUESTIONS_REQUIRED`, and otherwise honors
`ai_response.get("is_complete", False)` from the engine. -/
def respond_is_complete (conv : List Turn) (p : Nat → Except Unit String)
    (now : Nat) : Bool :=
  if TOTAL_QUESTIONS_REQUIRED ≤ answeredCount conv then true
  else (generate_next_question conv p now).is_complete

/-! ## Spec-worded predicates (for refinement comparison only)

These two definitions follow the specification's words, not the source; they
exist to be compared against the source-derived definitions above. -/

/-- Modelled from the spec: "structurally valid result (question ≥ 10 chars,
exactly 5 options, valid key)". -/
def spec_structurally_valid (r : QResponse) : Bool :=
  decide (10 ≤ r.question.data.length) && (r.options.length == 5) &&
    (match r.preference_key with
     | some k => matchesKeyRegex k
     | none => false)

/-- Modelled from the spec: "question present and ≥ 10 characters with
≥ 3 words; exactly 5 options; category_key matches `^[a-z][a-z0-9_]*$`". -/
def spec_quality_predicate (r : QResponse) : Bool :=
  (r.question ≠ "") && decide (10 ≤ r.question.data.length) &&
    decide (3 ≤ countWords r.question) && (r.options.length == 5) &&
    (match r.preference_key with
     | some k => matchesKeyRegex k
     | none => false)

/-! ## Basic lemmas -/

theorem strData_append (s t : String) : (s ++ t).data = s.data ++ t.data := by
  cases s; cases t; rfl

theorem dropWhile_length_le (p : Char → Bool) (l : List Char) :
    (l.dropWhile p).length ≤ l.length := by
  induction l with
  | nil => simp
  | cons c rest ih =>
    rw [List.dropWhile_cons]
    split_ifs with h
    · simpa using Nat.le_succ_of_le ih
    · simp

theorem pyStripL_length_le (l : List Char) : (pyStripL l).length ≤ l.length := by
  unfold pyStripL
  calc ((l.dropWhile isPyWs).reverse.dropWhile isPyWs).reverse.length
      = ((l.dropWhile isPyWs).reverse.dropWhile isPyWs).length := by
        exact List.length_reverse _
    _ ≤ (l.dropWhile isPyWs).reverse.length := dropWhile_length_le _ _
    _ = (l.dropWhile isPyWs).length := List.length_reverse _
    _ ≤ l.length := dropWhile_length_le _ _

theorem isKeyTail_digitChar (d : Nat) : isKeyTail (digitChar d) = true := by
  unfold digitChar
  split_ifs <;> decide

theorem natDigitsAux_all (fuel : Nat) : ∀ (n : Nat) (acc : List Char),
    (∀ c ∈ acc, isKeyTail c = true) →
    ∀ c ∈ natDigitsAux fuel n acc, isKeyTail c = true := by
  induction fuel with
  | zero => intro n acc hacc; exact hacc
  | succ fuel ih =>
    intro n acc hacc
    unfold natDigitsAux
    split_ifs
    · intro c hc
      rcases List.mem_cons.mp hc with h | h
      · subst h; exact isKeyTail_digitChar _
      · exact hacc c h
    · refine ih (n / 10) _ ?_
      intro c hc
      rcases List.mem_cons.mp hc with h | h
      · subst h; exact isKeyTail_digitChar _
      · exact hacc c h

theorem natToString_all_keyTail (n : Nat) :
    ∀ c ∈ (natToString n).data, isKeyTail c = true :=
  natDigitsAux_all (n + 1) n [] (by intro c hc; cases hc)

theorem strTakeRight_mem (k : Nat) (s : String) :
    ∀ c ∈ (strTakeRight k s).data, c ∈ s.data := by
  intro c hc
  unfold strTakeRight at hc
  simp only [List.mem_reverse] at hc
  have := List.mem_of_mem_take hc
  simpa using this

theorem matchesKeyRegex_append_tail (s t : String)
    (h : matchesKeyRegex s = true) (h2 : ∀ c ∈ t.data, isKeyTail c = true) :
    matchesKeyRegex (s ++ t) = true := by
  unfold matchesKeyRegex at h ⊢
  rw [strData_append]
  rcases hd : s.data with _ | ⟨c, cs⟩
  · rw [hd] at h; simp at h
  · rw [hd] at h
    simp only [List.cons_append]
    simp only [Bool.and_eq_true, List.all_eq_true] at h ⊢
    refine ⟨h.1, ?_⟩
    intro x hx
    rcases List.mem_append.mp hx with hx | hx
    · exact h.2 x hx
    · exact h2 x hx

/-- The quality predicate, unfolded into a conjunction. -/
theorem is_quality_iff (r : QResponse) :
    is_quality_response r = true ↔
      (10 ≤ (pyStrip r.question).data.length ∧ r.options.length = 5 ∧
        (∃ k, r.preference_key = some k ∧ matchesKeyRegex k = true) ∧
        3 ≤ countChar ' ' r.question) := by
  rcases r with ⟨q, opts, key, comp⟩
  unfold is_quality_response
  dsimp only
  rcases key with _ | k
  all_goals dsimp only
  · constructor
    · intro h; split_ifs at h; simp_all
    · rintro ⟨-, -, ⟨k, hk2, -⟩, -⟩; cases hk2
  · constructor
    · intro h
      split_ifs at h with h1 h2 h3 h4
      · have h1a : ¬(q = "") ∧ ¬((pyStrip q).data.length < 10) := by
          simpa [not_or] using h1
        have h3a : matchesKeyRegex k = true := by simpa using h3
        exact ⟨by omega, by omega, ⟨k, rfl, h3a⟩, by omega⟩
    · rintro ⟨hlen, hopts, ⟨k2, hk2, hreg⟩, hsp⟩
      injection hk2 with hk2
      subst hk2
      have hq : ¬(q = "") := by
        intro h
        rw [h] at hlen
        simp [pyStrip, pyStripL] at hlen
      split_ifs with h1 h2 h3 h4
      · exfalso
        have : q = "" ∨ (pyStrip q).data.length < 10 := by simpa using h1
        rcases this with h | h
        · exact hq h
        · omega
      · exact absurd hopts h2
      · exfalso
        have : matchesKeyRegex k = false := by simpa using h3
        rw [hreg] at this
        cases this
      · omega
      · rfl

/-! ## Structural lemmas about the fallback generators -/

theorem quality_emergency (qn now : Nat) :
    is_quality_response (emergency_dynamic_generation qn now) = true := by
  have hsuf : ∀ c ∈ (strTakeRight 4 (natToString now)).data, isKeyTail c = true := by
    intro c hc
    exact natToString_all_keyTail now c (strTakeRight_mem 4 (natToString now) c hc)
  unfold emergency_dynamic_generation
  dsimp only
  split
  · rw [is_quality_iff]
    dsimp only
    refine ⟨by decide, by decide, ⟨_, rfl, ?_⟩, by decide⟩
    exact matchesKeyRegex_append_tail "meal_priority_" _ (by decide) hsuf
  · rw [is_quality_iff]
    dsimp only
    refine ⟨by decide, by decide, ⟨_, rfl, ?_⟩, by decide⟩
    exact matchesKeyRegex_append_tail "eating_flexibility_" _ (by decide) hsuf
  · rw [is_quality_iff]
    dsimp only
    refine ⟨by decide, by decide, ⟨_, rfl, ?_⟩, by decide⟩
    exact matchesKeyRegex_append_tail "cooking_approach_" _ (by decide) hsuf

theorem emergency_not_complete (qn now : Nat) :
    (emergency_dynamic_generation qn now).is_complete = false := by
  unfold emergency_dynamic_generation
  split <;> rfl

theorem quality_alternative (used : List String) (qn : Nat) :
    is_quality_response (generate_alternative_dynamic_question used qn) = true := by
  have hqn : ∀ c ∈ (natToString qn).data, isKeyTail c = true := natToString_all_keyTail qn
  unfold generate_alternative_dynamic_question
  dsimp only
  split_ifs
  · rw [is_quality_iff]
    dsimp only
    refine ⟨by decide, by decide, ⟨_, rfl, ?_⟩, by decide⟩
    exact matchesKeyRegex_append_tail "snacking_style_" _ (by decide) hqn
  · rw [is_quality_iff]
    dsimp only
    refine ⟨by decide, by decide, ⟨_, rfl, ?_⟩, by decide⟩
    exact matchesKeyRegex_append_tail "cooking_motivation_" _ (by decide) hqn
  · rw [is_quality_iff]
    dsimp only
    refine ⟨by decide, by decide, ⟨_, rfl, ?_⟩, by decide⟩
    exact matchesKeyRegex_append_tail "meal_satisfaction_" _ (by decide) hqn
  · rw [is_quality_iff]
    dsimp only
    refine ⟨by decide, by decide, ⟨_, rfl, ?_⟩, by decide⟩
    exact matchesKeyRegex_append_tail "food_exploration_" _ (by decide) hqn
  · rw [is_quality_iff]
    dsimp only
    refine ⟨by decide, by decide, ⟨_, rfl, ?_⟩, by decide⟩
    exact matchesKeyRegex_append_tail "eating_environment_" _ (by decide) hqn
  · rw [is_quality_iff]
    dsimp only
    refine ⟨by decide, by decide, ⟨_, rfl, ?_⟩, by decide⟩
    refine matchesKeyRegex_append_tail _ _ ?_ ?_
    · exact matchesKeyRegex_append_tail _ _
        (matchesKeyRegex_append_tail "custom_preference_" _ (by decide) hqn)
        (by decide)
    · exact natToString_all_keyTail _

theorem alternative_not_complete (used : List String) (qn : Nat) :
    (generate_alternative_dynamic_question used qn).is_complete = false := by
  unfold generate_alternative_dynamic_question
  dsimp only
  split_ifs <;> rfl

theorem enhance_not_complete (pr : QResponse) (used : List String) (qn now : Nat) :
    (enhance_fully_dynamic_response pr used qn now).is_complete = false := rfl

theorem completion_is_complete (h : List Turn) :
    (generate_completion_response h).is_complete = true := rfl

theorem quality_implies_spec_valid (r : QResponse)
    (h : is_quality_response r = true) : spec_structurally_valid r = true := by
  rw [is_quality_iff] at h
  obtain ⟨hlen, hopts, ⟨k, hk, hreg⟩, -⟩ := h
  have hle : (pyStrip r.question).data.length ≤ r.question.data.length := by
    unfold pyStrip
    exact pyStripL_length_le _
  unfold spec_structurally_valid
  rw [hk]
  simp [hreg, hopts]
  have hlen2 : r.question.length = r.question.data.length := rfl
  omega

theorem generate_eq_completion (h : List Turn) (p : Nat → Except Unit String)
    (now : Nat) (hge : 10 ≤ answeredCount h) :
    generate_next_question h p now = generate_completion_response h := by
  unfold generate_next_question
  rw [if_pos hge]

theorem generate_quality (h : List Turn) (p : Nat → Except Unit String)
    (now : Nat) (hlt : answeredCount h < 10) :
    is_quality_response (generate_next_question h p now) = true := by
  unfold generate_next_question
  rw [if_neg (by omega)]
  dsimp only
  split
  · exact quality_emergency _ _
  · split
    · exact quality_emergency _ _
    · split_ifs with hq ha
      · exact hq
      · exact quality_alternative _ _
      · exact absurd (quality_alternative _ _) ha

theorem generate_not_complete (h : List Turn) (p : Nat → Except Unit String)
    (now : Nat) (hlt : answeredCount h < 10) :
    (generate_next_question h p now).is_complete = false := by
  unfold generate_next_question
  rw [if_neg (by omega)]
  dsimp only
  split
  · exact emergency_not_complete _ _
  · split
    · exact emergency_not_complete _ _
    · split_ifs with hq ha
      · exact enhance_not_complete _ _ _ _
      · exact alternative_not_complete _ _
      · exact enhance_not_complete _ _ _ _

/-- The engine-level completion rule: `is_complete` iff ten answered turns,
for every provider behaviour and clock value. -/
theorem generate_complete_iff (h : List Turn) (p : Nat → Except Unit String)
    (now : Nat) :
    (generate_next_question h p now).is_complete = true ↔ 10 ≤ answeredCount h := by
  constructor
  · intro hc
    by_contra hlt
    rw [generate_not_complete h p now (by omega)] at hc
    cases hc
  · intro hge
    rw [generate_eq_completion h p now hge]
    exact completion_is_complete h

/-- The session-layer completion decision fires exactly at the endpoint
threshold of 9 answered turns. -/
theorem respond_complete_iff (conv : List Turn) (p : Nat → Except Unit String)
    (now : Nat) :
    respond_is_complete conv p now = true ↔
      TOTAL_QUESTIONS_REQUIRED ≤ answeredCount conv := by
  unfold respond_is_complete
  split_ifs with h9
  · simp [h9]
  · have hlt : answeredCount conv < 10 := by
      unfold TOTAL_QUESTIONS_REQUIRED at h9
      omega
    rw [generate_not_complete conv p now hlt]
    simp
    omega

theorem retry_error_of_empty (p : Nat → Except Unit String)
    (hp : ∀ i, i < 3 → p i = .ok "") :
    generate_with_intelligent_retry p = .error () := by
  unfold generate_with_intelligent_retry
  rw [hp 0 (by omega), hp 1 (by omega), hp 2 (by omega)]
  rfl

theorem generate_of_empty_provider (h : List Turn) (p : Nat → Except Unit String)
    (now : Nat) (hlt : answeredCount h < 10) (hp : ∀ i, i < 3 → p i = .ok "") :
    generate_next_question h p now = emergency_dynamic_generation h.length now := by
  unfold generate_next_question
  rw [if_neg (by omega)]
  dsimp only
  rw [retry_error_of_empty p hp]

theorem parse_not_complete (raw : String) (qn : Nat) (pr : QResponse)
    (h : flexible_parse_response raw qn = .ok pr) : pr.is_complete = false := by
  unfold flexible_parse_response at h
  split_ifs at h
  dsimp only at h
  cases h
  rfl

theorem contextual_length (q : String) (qn : Nat) :
    (generate_contextual_options q qn).length = 4 := by
  unfold generate_contextual_options
  dsimp only
  split_ifs <;> rfl

theorem enhance_options_shape (pr : QResponse) (used : List String) (qn now : Nat) :
    (enhance_fully_dynamic_response pr used qn now).options.length = 5 ∧
      (enhance_fully_dynamic_response pr used qn now).options.getLast? =
        some "Other (please specify)" := by
  unfold enhance_fully_dynamic_response
  dsimp only
  constructor
  · rw [List.length_append, List.length_take]
    split_ifs with h
    · rw [contextual_length]
      decide
    · simp
      omega
  · exact List.getLast?_concat _

/-! ## Lemmas about the preference dictionary -/

theorem lookupPref_setPref_self (m : List (String × String)) (k v : String) :
    lookupPref (setPref m k v) k = some v := by
  induction m with
  | nil => simp [setPref, lookupPref]
  | cons p rest ih =>
    unfold setPref
    split_ifs with hp
    · simp [lookupPref]
    · unfold lookupPref
      rw [if_neg hp]
      exact ih

theorem lookupPref_setPref_ne (m : List (String × String)) (k v k2 : String)
    (hne : k2 ≠ k) : lookupPref (setPref m k v) k2 = lookupPref m k2 := by
  induction m with
  | nil =>
    simp only [setPref, lookupPref]
    rw [if_neg (by simpa using fun hh => hne hh.symm)]
  | cons p rest ih =>
    unfold setPref
    split_ifs with hp
    · unfold lookupPref
      rw [if_neg (by simpa using fun hh => hne hh.symm), if_neg (by rw [hp]; simpa using fun hh => hne hh.symm)]
    · unfold lookupPref
      by_cases hp2 : p.1 = k2
      · rw [if_pos hp2, if_pos hp2]
      · rw [if_neg hp2, if_neg hp2]
        exact ih

theorem lookupPref_setPref_isSome (m : List (String × String)) (k v k2 : String)
    (h : (lookupPref m k2).isSome = true) :
    (lookupPref (setPref m k v) k2).isSome = true := by
  by_cases hk : k2 = k
  · subst hk
    rw [lookupPref_setPref_self]
    rfl
  · rw [lookupPref_setPref_ne m k v k2 hk]
    exact h

theorem extract_fold_isSome (conv : List Turn) (m : List (String × String))
    (k : String) (h : (lookupPref m k).isSome = true) :
    (lookupPref (conv.foldl extract_preferences_step m) k).isSome = true := by
  induction conv generalizing m with
  | nil => exact h
  | cons t rest ih =>
    rw [List.foldl_cons]
    apply ih
    unfold extract_preferences_step
    rcases t.preference_key with _ | k1 <;> rcases t.answer with _ | a <;> dsimp only
    · exact h
    · exact h
    · exact h
    · split_ifs with hc
      · exact lookupPref_setPref_isSome m k1 _ k h
      · exact h

theorem extract_fold_no_contrib (conv : List Turn) (m : List (String × String))
    (k : String) (h : ∀ t ∈ conv, contributes_to t k = false) :
    lookupPref (conv.foldl extract_preferences_step m) k = lookupPref m k := by
  induction conv generalizing m with
  | nil => rfl
  | cons t rest ih =>
    rw [List.foldl_cons]
    rw [ih _ (fun t2 ht2 => h t2 (List.mem_cons_of_mem t ht2))]
    have hct := h t (List.mem_cons_self t rest)
    unfold extract_preferences_step
    unfold contributes_to at hct
    rcases hk1 : t.preference_key with _ | k1 <;> rcases ha : t.answer with _ | a
    · rfl
    · rfl
    · rfl
    · rw [hk1, ha] at hct
      dsimp only at hct ⊢
      split_ifs with hc
      · refine lookupPref_setPref_ne m k1 _ k ?_
        intro hkk
        subst hkk
        simp only [beq_self_eq_true, Bool.true_and] at hct
        rw [hc] at hct
        cases hct
      · rfl

theorem default_lookup_isSome (k : String) (hk : k ∈ priority_categories) :
    (lookupPref default_preferences k).isSome = true := by
  fin_cases hk <;> decide

/-! ## Lemmas about option padding and key substitution -/

theorem getElem?_padOptions_of_ge (l : List String) (j : Nat)
    (h1 : l.length ≤ j) (h2 : j < 4) :
    (padOptions l)[j]? = some ("Option " ++ natToString (j + 1)) := by
  unfold padOptions
  rw [List.getElem?_append_right h1, List.getElem?_map, List.getElem?_range]
  dsimp only [Option.map_some']
  have harith : l.length + (j - l.length) + 1 = j + 1 := by omega
  rw [harith]
  omega

theorem padOptions_length_ge (l : List String) : 4 ≤ (padOptions l).length := by
  unfold padOptions
  rw [List.length_append, List.length_map, List.length_range]
  omega

/-- On a key collision, `_enhance_fully_dynamic_response` replaces the key
with the output of `_generate_unique_preference_key` on the (defaulted)
question text. -/
theorem enhance_key_on_collision (pr : QResponse) (used : List String)
    (qn now : Nat) (k : String) (hk : pr.preference_key = some k)
    (hc : used.contains k = true) :
    (enhance_fully_dynamic_response pr used qn now).preference_key =
      some (generate_unique_preference_key used (enhance_question pr qn) qn now) := by
  unfold enhance_fully_dynamic_response
  dsimp only
  rw [hk]
  simp [hc]
  intro h1 h2
  exact absurd (by simpa using hc : k ∈ used) h2

instance {ε α : Type} [DecidableEq ε] [DecidableEq α] : DecidableEq (Except ε α)
  | .error e1, .error e2 =>
    if h : e1 = e2 then .isTrue (by rw [h]) else .isFalse (fun hh => h (Except.error.inj hh))
  | .error _, .ok _ => .isFalse (fun hh => Except.noConfusion hh)
  | .ok _, .error _ => .isFalse (fun hh => Except.noConfusion hh)
  | .ok a1, .ok a2 =>
    if h : a1 = a2 then .isTrue (by rw [h]) else .isFalse (fun hh => h (Except.ok.inj hh))

/-! ## Concrete fixtures used by counterexamples and witnesses -/

/-- A provider that returns an empty text on every attempt. -/
def pEmpty : Nat → Except Unit String := fun _ => Except.ok ""

/-- Nine answered turns. -/
def conv9 : List Turn :=
  List.replicate 9 { question := some "Q1", answer := some "Answer one",
                     preference_key := some "key_one" }

/-- Ten answered turns. -/
def conv10 : List Turn :=
  List.replicate 10 { question := some "Q1", answer := some "Answer one",
                      preference_key := some "key_one" }

/-- Raw model text whose fourth option is already an `Other` option. -/
def rawDupOther : String :=
  "Question: What do you like to eat daily?\nA) Rice\nB) Bread\nC) Salad\nD) Other (please specify)\nPreference_Key: dietary_style"

/-- Raw model text announcing that onboarding is finished. -/
def rawMarker : String :=
  "Onboarding is done! We have everything we need now. Thank you!"

/-- Raw model text with only two extractable options. -/
def rawTwoOptions : String :=
  "Question: What do you like for breakfast today?\nA) Eggs and toast\nB) Fruit salad"

/-- The parse result of `rawTwoOptions` (checked by `decide` where used). -/
def parsedBreakfast : QResponse :=
  { question := "What do you like for breakfast today?",
    options := ["Eggs and toast", "Fruit salad", "Option 3", "Option 4",
                "Other (please specify)"],
    preference_key := some "breakfast_preference", is_complete := false }

/-- The parse result of `rawMarker` (checked by `decide` where used). -/
def parsedMarker : QResponse :=
  { question := "",
    options := ["Option 1", "Option 2", "Option 3", "Option 4", "Other (please specify)"],
    preference_key := none, is_complete := false }

/-- A parsed candidate that reuses the already-covered `dietary_style` key. -/
def parsedCollision : QResponse :=
  { question := "What type of food do you usually eat?",
    options := ["Vegetarian only", "Non-vegetarian", "Vegan", "Jain food"],
    preference_key := some "dietary_style", is_complete := false }

/-- A used-key set exhausting the base key, all numeric variants, and the
time-derived fallback for `now = 1000`. -/
def usedExhausted : List String :=
  ["spice_preference", "spice_preference_1", "spice_preference_2",
   "spice_preference_3", "spice_preference_4", "spice_preference_5",
   "spice_preference_6", "spice_preference_7", "spice_preference_8",
   "spice_preference_9", "preference_000"]

/-- A candidate with a three-word question (two spaces), five options and a
valid key. -/
def qualityCounter : QResponse :=
  { question := "Favourite cuisine overall?",
    options := ["North Indian", "South Indian", "Gujarati", "Bengali",
                "Other (please specify)"],
    preference_key := some "regional_cuisines", is_complete := false }

/-- One answered spice-tolerance turn. -/
def convSpice : List Turn :=
  [{ question := none, answer := some "Medium spicy",
     preference_key := some "spice_tolerance" }]

/-! ## Claim theorems -/

/-- C1 counterexample: a session with exactly 9 answered turns is reported
complete by the session layer, although 9 < 10 — the claimed "completion iff
at least 10 answered turns" fails at the session level. -/
theorem C1_counterexample :
    respond_is_complete conv9 pEmpty 0 = true ∧ answeredCount conv9 = 9 := by
  constructor
  · decide
  · decide

/-- C1 (amended): the engine `generate_next_question` returns
`is_complete = true` iff the answered count is at least 10 — for every
provider behaviour, so a provider-side completion signal below 10 never
produces completion — but the session layer (`onboardings.py`) completes as
soon as `TOTAL_QUESTIONS_REQUIRED = 9` turns are answered, so session-level
completion happens at 9, not 10. -/
theorem C1_completion_thresholds (h : List Turn) (p : Nat → Except Unit String)
    (now : Nat) :
    ((generate_next_question h p now).is_complete = true ↔ 10 ≤ answeredCount h) ∧
      (respond_is_complete h p now = true ↔
        TOTAL_QUESTIONS_REQUIRED ≤ answeredCount h) :=
  ⟨generate_complete_iff h p now, respond_complete_iff h p now⟩

/-- C2 counterexample: on a history with 10 answered turns the engine returns
the completion response, whose option list is empty, so the result does not
satisfy the structural validity predicate — the claim's unconditional
"always returns a structurally valid result" fails. -/
theorem C2_counterexample :
    spec_structurally_valid (generate_next_question conv10 pEmpty 0) = false ∧
      answeredCount conv10 = 10 := by
  constructor
  · decide
  · decide

/-- C2 (amended): `generate_next_question` is total over every conversation
history and every provider behaviour (parse and generation failures are
absorbed; the embedding returns a plain value, never an error), and whenever
the answered count is below 10 the returned candidate passes the source's
quality predicate and hence the spec's structural validity predicate.  At 10
or more answered turns it instead returns the completion response, whose
options list is empty. -/
theorem C2_always_valid_below_ten (h : List Turn) (p : Nat → Except Unit String)
    (now : Nat) (hlt : answeredCount h < 10) :
    is_quality_response (generate_next_question h p now) = true ∧
      spec_structurally_valid (generate_next_question h p now) = true :=
  ⟨generate_quality h p now hlt,
   quality_implies_spec_valid _ (generate_quality h p now hlt)⟩

/-- C2 witness. -/
theorem C2_witness :
    is_quality_response (generate_next_question [] pEmpty 0) = true ∧
      spec_structurally_valid (generate_next_question [] pEmpty 0) = true :=
  C2_always_valid_below_ten [] pEmpty 0 (by decide)

/-- C3 counterexample: when the provider returns `""` on all three attempts,
the engine does NOT fall back to the creative question bank — the result is
the time-suffixed emergency candidate, not the bank's first unused entry. -/
theorem C3_counterexample :
    (generate_next_question [] pEmpty 99990).preference_key =
        some "meal_priority_9990" ∧
      (generate_next_question [] pEmpty 99990).question ≠
        (generate_alternative_dynamic_question [] 0).question := by
  constructor
  · decide
  · decide

/-- C3 (amended): if the provider returns an empty string on all three retry
attempts (and the interview is not already complete), the retry controller
raises and the engine falls back to EMERGENCY synthesis — the emergency
question indexed by the conversation length with a time-derived key — not to
the creative bank; the resulting candidate is structurally valid. -/
theorem C3_empty_provider_emergency (h : List Turn)
    (p : Nat → Except Unit String) (now : Nat) (hlt : answeredCount h < 10)
    (hp : ∀ i, i < 3 → p i = Except.ok "") :
    generate_next_question h p now = emergency_dynamic_generation h.length now ∧
      is_quality_response (generate_next_question h p now) = true :=
  ⟨generate_of_empty_provider h p now hlt hp, generate_quality h p now hlt⟩

/-- C3 witness. -/
theorem C3_witness :
    generate_next_question [] pEmpty 7 =
        emergency_dynamic_generation (List.length ([] : List Turn)) 7 ∧
      is_quality_response (generate_next_question [] pEmpty 7) = true :=
  C3_empty_provider_emergency [] pEmpty 7 (by decide) (fun _ _ => rfl)

/-- C4 (code bug): when the base key and all nine numeric variants collide,
the time-derived fallback `preference_<last 3 digits>` is returned WITHOUT a
membership check, so `_generate_unique_preference_key` can return a key that
is already in `used_keys`, contradicting its own docstring ("Generate a
unique preference key not in used_keys"). -/
theorem C4_time_fallback_collides :
    generate_unique_preference_key usedExhausted "spice" 0 1000 =
        "preference_000" ∧
      usedExhausted.contains "preference_000" = true := by
  constructor
  · decide
  · decide

/-- C5 counterexample: with `dietary_style` already covered and a parsed
candidate reusing it, the substituted key is `food_eating` — derived from the
question text by the concept table — not the next uncovered priority category
`spice_tolerance`. -/
theorem C5_counterexample :
    next_priority_category ["dietary_style"] = "spice_tolerance" ∧
      (enhance_fully_dynamic_response parsedCollision ["dietary_style"] 1 0).preference_key =
        some "food_eating" ∧
      some "food_eating" ≠ some (next_priority_category ["dietary_style"]) := by
  refine ⟨by decide, by decide, by decide⟩

/-- C5 (amended): when the parsed candidate's key is already in the covered
set, the key substituted by `_enhance_fully_dynamic_response` is
`_generate_unique_preference_key` applied to the (defaulted) question text —
i.e. a concept-table derivation from the question with uniqueness suffixes —
not the next uncovered category of the fixed priority list. -/
theorem C5_substitution_from_question (pr : QResponse) (used : List String)
    (qn now : Nat) (k : String) (hk : pr.preference_key = some k)
    (hc : used.contains k = true) :
    (enhance_fully_dynamic_response pr used qn now).preference_key =
      some (generate_unique_preference_key used (enhance_question pr qn) qn now) :=
  enhance_key_on_collision pr used qn now k hk hc

/-- C5 witness. -/
theorem C5_witness :
    (enhance_fully_dynamic_response parsedCollision ["dietary_style"] 1 0).preference_key =
      some (generate_unique_preference_key ["dietary_style"]
        (enhance_question parsedCollision 1) 1 0) :=
  C5_substitution_from_question parsedCollision ["dietary_style"] 1 0
    "dietary_style" rfl (by decide)

/-- C6 counterexample: a three-word question with only two spaces
("Favourite cuisine overall?", 26 characters) satisfies the claim's predicate
(present, ≥ 10 chars, ≥ 3 words, 5 options, valid key) but is REJECTED by
`_is_quality_response`, which requires at least three space characters
(`question.count(" ") >= 3`), not three words. -/
theorem C6_counterexample :
    spec_quality_predicate qualityCounter = true ∧
      is_quality_response qualityCounter = false := by
  constructor
  · decide
  · decide

/-- C6 (amended): `_is_quality_response` accepts exactly when the question is
non-empty with stripped length at least 10, the question contains at least
three SPACE characters (so e.g. a three-word question with two spaces is
rejected), the option list has exactly 5 entries, and the category key
matches `^[a-z][a-z0-9_]*$`. -/
theorem C6_quality_characterisation (r : QResponse) :
    is_quality_response r = true ↔
      (10 ≤ (pyStrip r.question).data.length ∧ r.options.length = 5 ∧
        (∃ k, r.preference_key = some k ∧ matchesKeyRegex k = true) ∧
        3 ≤ countChar ' ' r.question) :=
  is_quality_iff r

/-- C7 counterexample: when the model supplies an `Other` option among the
first four, the enhanced candidate carries the literal
"Other (please specify)" TWICE — the final option is not deduplicated. -/
theorem C7_counterexample :
    (flexible_parse_response rawDupOther 0).map
        (fun pr =>
          (enhance_fully_dynamic_response pr [] 0 0).options.count
            "Other (please specify)") = Except.ok 2 := by
  decide

/-- C7 (amended): the parser pads extracted options with numbered
placeholders up to four, and the enhanced candidate always has exactly five
options ending with the literal "Other (please specify)"; but the final
option is NOT deduplicated — a model-supplied `Other` among the first four
extracted options appears twice (the parser only omits its own copy when one
is already present, while the enhancer appends unconditionally). -/
theorem C7_options_shape (raw : String) (qn : Nat) (pr : QResponse)
    (used : List String) (now : Nat)
    (h : flexible_parse_response raw qn = .ok pr) :
    (∀ j, (extract_options (parse_lines raw)).length ≤ j → j < 4 →
        pr.options[j]? = some ("Option " ++ natToString (j + 1))) ∧
      (enhance_fully_dynamic_response pr used qn now).options.length = 5 ∧
      (enhance_fully_dynamic_response pr used qn now).options.getLast? =
        some "Other (please specify)" := by
  refine ⟨?_, (enhance_options_shape pr used qn now).1,
    (enhance_options_shape pr used qn now).2⟩
  intro j hj1 hj2
  unfold flexible_parse_response at h
  split_ifs at h
  dsimp only at h
  cases h
  dsimp only
  have hopts4 : ((padOptions (extract_options (parse_lines raw))).take 4)[j]? =
      some ("Option " ++ natToString (j + 1)) := by
    rw [List.getElem?_take, if_pos hj2]
    exact getElem?_padOptions_of_ge _ j hj1 hj2
  have hlen4 : ((padOptions (extract_options (parse_lines raw))).take 4).length = 4 := by
    rw [List.length_take]
    have := padOptions_length_ge (extract_options (parse_lines raw))
    omega
  split_ifs with hother
  · exact hopts4
  · rw [List.getElem?_append, if_pos (by omega)]
    exact hopts4

/-- C7 witness. -/
theorem C7_witness :
    parsedBreakfast.options[2]? = some "Option 3" ∧
      (enhance_fully_dynamic_response parsedBreakfast [] 0 0).options.length = 5 ∧
      (enhance_fully_dynamic_response parsedBreakfast [] 0 0).options.getLast? =
        some "Other (please specify)" := by
  have h := C7_options_shape rawTwoOptions 0 parsedBreakfast [] 0 (by decide)
  refine ⟨?_, h.2.1, h.2.2⟩
  rw [h.1 2 (by decide) (by decide)]
  decide

/-- C8 counterexample: the parser has NO completion-marker scan — on a text
announcing that onboarding is done, the parsed candidate still has
`is_complete = false`. -/
theorem C8_counterexample :
    isSubstr "onboarding is done" (pyLower rawMarker) = true ∧
      (flexible_parse_response rawMarker 4).map (fun pr => pr.is_complete) =
        Except.ok false := by
  constructor
  · decide
  · decide

/-- C8 (amended): `_flexible_parse_response` performs no completion-marker
scan at all; every successfully parsed candidate has `is_complete = false`,
so completion responses can only originate from the answered-count check in
`generate_next_question`. -/
theorem C8_parser_never_complete (raw : String) (qn : Nat) (pr : QResponse)
    (h : flexible_parse_response raw qn = Except.ok pr) :
    pr.is_complete = false :=
  parse_not_complete raw qn pr h

/-- C8 witness. -/
theorem C8_witness : parsedMarker.is_complete = false :=
  C8_parser_never_complete rawMarker 4 parsedMarker (by decide)

/-- C9 (confirmed): `extract_preferences` is a pure, deterministic function
of the turn log (it consults no clock and no randomness in the source), so
two extractions over the same log coincide. -/
theorem C9_extraction_deterministic (log : List Turn)
    (r1 r2 : List (String × String)) (h1 : r1 = extract_preferences log)
    (h2 : r2 = extract_preferences log) : r1 = r2 := by
  rw [h1, h2]

/-- C9 witness. -/
theorem C9_witness : extract_preferences convSpice = extract_preferences convSpice :=
  C9_extraction_deterministic convSpice _ _ rfl rfl

/-- C10 (confirmed): for every turn log, every priority category key is
present in the extracted mapping, and a priority category to which no
(answered, keyed) turn contributes keeps its fixed built-in default value. -/
theorem C10_priority_defaults (conv : List Turn) (k : String)
    (hk : k ∈ priority_categories) :
    (lookupPref (extract_preferences conv) k).isSome = true ∧
      ((∀ t ∈ conv, contributes_to t k = false) →
        lookupPref (extract_preferences conv) k =
          lookupPref default_preferences k) := by
  constructor
  · unfold extract_preferences
    exact extract_fold_isSome conv default_preferences k (default_lookup_isSome k hk)
  · intro h
    unfold extract_preferences
    exact extract_fold_no_contrib conv default_preferences k h

/-- C10 witness: with one answered spice-tolerance turn, `dietary_style`
keeps its default, which is `"Any"`. -/
theorem C10_witness :
    lookupPref (extract_preferences convSpice) "dietary_style" =
        lookupPref default_preferences "dietary_style" ∧
      lookupPref default_preferences "dietary_style" = some "Any" ∧
      (lookupPref (extract_preferences convSpice) "spice_tolerance").isSome = true :=
  ⟨(C10_priority_defaults convSpice "dietary_style" (by decide)).2 (by decide),
   by decide,
   (C10_priority_defaults convSpice "spice_tolerance" (by decide)).1⟩
